import Mathlib

/-!
Verification of the zkPoll reconciliation engine against its specification.

The definitions below are a shallow embedding of the reconciliation code of
the repository:

* `getTotalPolls` embeds the result-parsing logic of
  `src/frontend/src/config.ts` (function `getTotalPolls`, lines 282-432),
  the spec's `ResultDecoder.decode`.
* the identifier-resolution definitions embed the `handleSubmit` event loop
  of `src/unnamed/part_001` (lines 219-398), the spec's `IdentifierResolver`.
* `syncPollMetadata`, `getPollMetadataFromContract`, `savePollMetadata` and
  `updatePollMetadata` embed `src/unnamed/part_004` and `src/unnamed/part_003`,
  the spec's `CacheMerger` and local store.
* `watcherFires` embeds the polling effect of `src/frontend/src/config.ts`
  (PollList, lines 138-198), the spec's `ConfirmationWatcher`.

JavaScript values that the code inspects dynamically are modelled by small
inductive types; machine numbers are modelled by `Nat` (the quantities
involved are counts and identifiers, never subject to overflow in the code).
-/

/-- Value of a decimal digit character (code point minus 48), `none` for
anything else. -/
def digitVal (c : Char) : Option Nat :=
  if c.isDigit then some (c.toNat - 48) else none

/-- Reads a character list as a decimal number, `none` on the first
non-digit. -/
def digitsToNatAux : List Char → Nat → Option Nat
  | [], acc => some acc
  | c :: rest, acc =>
    match digitVal c with
    | some d => digitsToNatAux rest (acc * 10 + d)
    | none => none

/-- Models `Number(s)` applied to a string by the decoder: `some n` when the
string converts to the number `n`, `none` when the conversion yields `NaN`.
JS converts the empty string to `0`; decimal digit strings convert to their
value; a string such as `"1,234"` (the human formatting of large numbers) or
a non-numeric word yields `NaN`.  Other numeric formats (hex literals) are
not produced by `toHuman` and are modelled directly as numbers. -/
def jsNumber (s : String) : Option Nat :=
  digitsToNatAux s.data 0

/-- A loosely-typed JS value appearing as the payload of an `Ok`/`ok` key or
among the enumerable values of a human-readable object:
a number, a string, an object exposing a `toNumber` method (a Codec), or
anything else. -/
inductive Jv where
  | jnum (n : Nat)
  | jstr (s : String)
  | jobjNum (n : Nat)
  | jother
deriving DecidableEq, Repr

/-- The result of `output.toHuman()`: a bare number, an object with ordered
string-keyed fields, or anything else (null, a bare string, ...). -/
inductive HumanOut where
  | hnum (n : Nat)
  | hobj (fields : List (String × Jv))
  | hother
deriving DecidableEq, Repr

/-- The raw `result.output` value handed to the parsing logic of
`getTotalPolls`: null/undefined, a plain number, or an object.  For an
object, `human` is the value of `toHuman()` when the method exists and does
not throw (a missing method and a throwing one are indistinguishable to the
code: both leave PRIORIDAD 1 without a value), `okL`/`okU` are the values of
direct `ok`/`Ok` properties when present, and `toNum` is the value returned
by a direct `toNumber` method when present. -/
inductive RawOut where
  | nullish
  | num (n : Nat)
  | obj (human : Option HumanOut) (okL : Option Jv) (okU : Option Jv)
        (toNum : Option Nat)
deriving DecidableEq, Repr

/-- Ordered key lookup on the fields of a human-readable object, modelling
the JS `k in obj` test plus property read. -/
def lookupKey (k : String) : List (String × Jv) → Option Jv
  | [] => none
  | (k2, v) :: rest => if k2 = k then v else lookupKey k rest

/-- Conversion applied to the payload of an `Ok`/`ok` key found on the
human-readable output (config.ts lines 324-345): a string goes through
`Number(okValue) || 0`, a number is taken as is, an object with a
`toNumber` method through `toNumber() || 0`; any other shape leaves the
total at 0. -/
def parseHumanOk : Jv → Nat
  | .jstr s => (jsNumber s).getD 0
  | .jnum n => n
  | .jobjNum n => n
  | .jother => 0

/-- The scan of `Object.values(humanOutput)` (config.ts lines 352-364): take
the first value that is a number (even 0) or a string with a non-NaN numeric
conversion; skip everything else. -/
def scanVals : List Jv → Option Nat
  | [] => none
  | .jnum n :: _ => some n
  | .jstr s :: rest =>
    match jsNumber s with
    | some n => some n
    | none => scanVals rest
  | .jobjNum _ :: rest => scanVals rest
  | .jother :: rest => scanVals rest

/-- Conversion applied to a direct `ok`/`Ok` property of the raw output
(config.ts lines 378-397): a number is taken as is, an object with a
`toNumber` method through `toNumber() || 0`; a string or any other shape is
not handled on this path and leaves the total at 0. -/
def parseDirectOk : Jv → Nat
  | .jnum n => n
  | .jobjNum n => n
  | .jstr _ => 0
  | .jother => 0

/-- PRIORIDAD 1 of the parsing logic of `getTotalPolls` (config.ts lines
313-373): convert the output with `toHuman()` and read an `Ok` key, then an
`ok` key, then scan the object's values.  The
`typeof humanOutput === 'number'` test inside the object branch at line 347
is dead code and is omitted; the outer number case at line 366 is `hnum`.
Yields the value assigned to `total`, which stays 0 when nothing applies. -/
def getTotalPollsHumanTotal (out : RawOut) : Nat :=
  match out with
  | .obj (some h) _ _ _ =>
    match h with
    | .hobj fields =>
      (match lookupKey "Ok" fields with
       | some okValue => parseHumanOk okValue
       | none =>
         match lookupKey "ok" fields with
         | some okValue => parseHumanOk okValue
         | none =>
           match scanVals (fields.map Prod.snd) with
           | some v => v
           | none => 0)
    | .hnum n => n
    | .hother => 0
  | _ => 0

/-- PRIORIDAD 2 of the parsing logic of `getTotalPolls` (config.ts lines
376-412): a direct `ok` key, else a direct `Ok` key, else a direct
`toNumber()` accepted only when positive, else the output itself when it is
a plain number. -/
def getTotalPollsRawTotal (out : RawOut) : Nat :=
  match out with
  | .obj _ okL okU toNum =>
    (match okL with
     | some okValue => parseDirectOk okValue
     | none =>
       match okU with
       | some okValue => parseDirectOk okValue
       | none =>
         match toNum with
         | some numValue => if 0 < numValue then numValue else 0
         | none => 0)
  | .num n => n
  | .nullish => 0

/-- The parsing logic of `getTotalPolls` (config.ts lines 310-431),
transliterated: PRIORIDAD 1, then PRIORIDAD 2 only when the total is still
0, then return the total when positive and the failure sentinel 0
otherwise.  (When the output is the plain number 0 the source skips
PRIORIDAD 2 because `0` is falsy; the result, 0, is unchanged.) -/
def getTotalPolls (out : RawOut) : Nat :=
  let total1 : Nat := getTotalPollsHumanTotal out
  let total2 : Nat := if total1 = 0 then getTotalPollsRawTotal out else total1
  if 0 < total2 then total2 else 0

/-! ### The strategy chain as the specification words it

The spec describes `decode` as six strategies attempted in a fixed order,
stopping at the first that yields a definite (positive) value.  The
following definitions follow the spec's words, for comparison with
`getTotalPolls` above. -/

/-- Spec strategy (1): human-readable conversion plus `Ok`/`ok` key
extraction. -/
def specStrategy1 : RawOut → Option Nat
  | .obj (some (.hobj fields)) _ _ _ =>
    (match lookupKey "Ok" fields with
     | some v => some (parseHumanOk v)
     | none => (lookupKey "ok" fields).map parseHumanOk)
  | _ => none

/-- Spec strategy (2): human-readable conversion yielding a bare number. -/
def specStrategy2 : RawOut → Option Nat
  | .obj (some (.hnum n)) _ _ _ => some n
  | _ => none

/-- Spec strategy (3): scanning the human-readable object's values for the
first number or numeric string. -/
def specStrategy3 : RawOut → Option Nat
  | .obj (some (.hobj fields)) _ _ _ => scanVals (fields.map Prod.snd)
  | _ => none

/-- Spec strategy (4): direct `ok`/`Ok` key presence on the raw value. -/
def specStrategy4 : RawOut → Option Nat
  | .obj _ okL okU _ =>
    (match okL with
     | some v => some (parseDirectOk v)
     | none => okU.map parseDirectOk)
  | _ => none

/-- Spec strategy (5): a numeric-conversion method on the raw value,
accepted only if it yields a value strictly greater than 0. -/
def specStrategy5 : RawOut → Option Nat
  | .obj _ _ _ (some n) => if 0 < n then some n else none
  | _ => none

/-- Spec strategy (6): the raw value itself when it is a plain number. -/
def specStrategy6 : RawOut → Option Nat
  | .num n => some n
  | _ => none

/-- First definite result of a strategy list: the first strategy that yields
a strictly positive value wins; a strategy yielding nothing or a
non-positive value is passed over; 0 when the list is exhausted. -/
def firstDefinite : List (Option Nat) → Nat
  | [] => 0
  | none :: rest => firstDefinite rest
  | some v :: rest => if 0 < v then v else firstDefinite rest

/-- The decoder the specification describes: the six strategies in order,
first definite value wins. -/
def specDecode (out : RawOut) : Nat :=
  firstDefinite [specStrategy1 out, specStrategy2 out, specStrategy3 out,
    specStrategy4 out, specStrategy5 out, specStrategy6 out]

/-- The human-readable phase of `getTotalPolls` as a single strategy: within
the phase the first structurally applicable extraction commits, definite or
not (the source's `else if` chain at config.ts lines 323-365). -/
def humanGroup : RawOut → Option Nat
  | .obj (some h) _ _ _ =>
    match h with
    | .hnum n => some n
    | .hobj fields =>
      (match lookupKey "Ok" fields with
       | some v => some (parseHumanOk v)
       | none =>
         match lookupKey "ok" fields with
         | some v => some (parseHumanOk v)
         | none => scanVals (fields.map Prod.snd))
    | .hother => none
  | _ => none

/-- The raw phase of `getTotalPolls` as a single strategy: a direct `ok`
key, else a direct `Ok` key, else `toNumber()` when positive, else a plain
number (the source's `else if` chain at config.ts lines 376-412). -/
def rawGroup : RawOut → Option Nat
  | .obj _ okL okU toNum =>
    (match okL with
     | some v => some (parseDirectOk v)
     | none =>
       match okU with
       | some v => some (parseDirectOk v)
       | none => toNum.bind (fun n => if 0 < n then some n else none))
  | .num n => some n
  | .nullish => none

/-- The spec-side notion of a raw result representing an explicit failure:
the human-readable conversion is an object carrying an `Err` key and no
`Ok`/`ok` key. -/
def isExplicitFailure : RawOut → Bool
  | .obj (some (.hobj fields)) _ _ _ =>
    (lookupKey "Err" fields).isSome && (lookupKey "Ok" fields).isNone
      && (lookupKey "ok" fields).isNone
  | _ => false

lemma humanTotal_eq_humanGroup (out : RawOut) :
    getTotalPollsHumanTotal out = (humanGroup out).getD 0 := by
  cases out with
  | nullish => rfl
  | num n => rfl
  | obj human okL okU toNum =>
    cases human with
    | none => rfl
    | some h =>
      cases h with
      | hnum n => rfl
      | hother => rfl
      | hobj fields =>
        cases hOk : lookupKey "Ok" fields with
        | some v => simp [getTotalPollsHumanTotal, humanGroup, hOk]
        | none =>
          cases hok : lookupKey "ok" fields with
          | some v => simp [getTotalPollsHumanTotal, humanGroup, hOk, hok]
          | none =>
            cases hscan : scanVals (fields.map Prod.snd) with
            | some v =>
              simp [getTotalPollsHumanTotal, humanGroup, hOk, hok, hscan]
            | none =>
              simp [getTotalPollsHumanTotal, humanGroup, hOk, hok, hscan]

lemma rawTotal_clamp_eq_rawGroup (out : RawOut) :
    (if 0 < getTotalPollsRawTotal out then getTotalPollsRawTotal out else 0)
      = firstDefinite [rawGroup out] := by
  cases out with
  | nullish => rfl
  | num n => simp [getTotalPollsRawTotal, rawGroup, firstDefinite]
  | obj human okL okU toNum =>
    cases okL with
    | some v => simp [getTotalPollsRawTotal, rawGroup, firstDefinite]
    | none =>
      cases okU with
      | some v => simp [getTotalPollsRawTotal, rawGroup, firstDefinite]
      | none =>
        cases toNum with
        | some n =>
          by_cases hn : 0 < n <;>
            simp [getTotalPollsRawTotal, rawGroup, firstDefinite, hn]
        | none => rfl

theorem decode_eq_groupFirst (out : RawOut) :
    getTotalPolls out = firstDefinite [humanGroup out, rawGroup out] := by
  have h1 := humanTotal_eq_humanGroup out
  have h2 := rawTotal_clamp_eq_rawGroup out
  cases hg : humanGroup out with
  | none =>
    rw [hg] at h1
    simp only [Option.getD_none] at h1
    simp only [getTotalPolls, h1, if_pos rfl, firstDefinite]
    exact h2
  | some v =>
    rw [hg] at h1
    simp only [Option.getD_some] at h1
    by_cases hv : 0 < v
    · have hne : ¬ v = 0 := by omega
      simp only [getTotalPolls, h1, if_neg hne, if_pos hv, firstDefinite]
    · have hz : v = 0 := by omega
      subst hz
      simp only [getTotalPolls, h1, if_pos rfl, firstDefinite, if_neg hv]
      exact h2

/-! ### ConfirmationWatcher

Embedding of the post-creation polling effect of PollList
(`src/frontend/src/config.ts`, lines 138-198).  After the initial 3000 ms
settling delay the effect captures `previousTotalPolls` (the baseline; a
failing count query yields 0 via `getCurrentTotal`'s catch) and then runs a
2000 ms interval.  Each tick increments `attempts` and polls the count; a
count above the baseline fires `loadPolls` and clears the interval; hitting
`maxAttempts` (20) fires `loadPolls` and clears the interval; otherwise
every third attempt fires `loadPolls` and polling continues.  The baseline
is only reassigned in the stopping branch, so every comparison during a run
is against the initial baseline.

`counts a` is the count polled at attempt `a` (attempts are numbered from
1); the result is the list of attempt numbers at which `loadPolls` was
invoked by this effect, in order.  Ticks are modelled as atomic: the
interval body runs to completion before the next tick (the simulated-clock
reading of the spec). -/
def tickList (counts : Nat → Nat) (baseline : Nat) :
    Nat → Nat → List Nat
  | _, 0 => []
  | attempt, fuel + 1 =>
    let a := attempt + 1
    if baseline < counts a then [a]
    else if 20 ≤ a then [a]
    else if a % 3 = 0 then a :: tickList counts baseline a fuel
    else tickList counts baseline a fuel

/-- The full run of the confirmation watcher: 20 ticks of fuel starting
before attempt 1, against the captured baseline. -/
def watcherFires (counts : Nat → Nat) (baseline : Nat) : List Nat :=
  tickList counts baseline 0 20

/-- The fire pattern the code produces when the count first exceeds the
baseline at attempt `k`: every third attempt before `k` fires the interim
refresh, then attempt `k` fires the confirmation refresh and the run
stops. -/
def expectedEarlyFires (k : Nat) : Nat → Nat → List Nat
  | _, 0 => []
  | attempt, fuel + 1 =>
    let a := attempt + 1
    if a = k then [k]
    else if a % 3 = 0 then a :: expectedEarlyFires k a fuel
    else expectedEarlyFires k a fuel

lemma tickList_firstExceed (counts : Nat → Nat) (baseline k : Nat)
    (hexc : baseline < counts k)
    (hbefore : ∀ j, 0 < j → j < k → counts j ≤ baseline) :
    ∀ fuel attempt, attempt + fuel = 20 → attempt < k → k ≤ 20 →
      tickList counts baseline attempt fuel = expectedEarlyFires k attempt fuel := by
  intro fuel
  induction fuel with
  | zero => intro attempt h20 hak hk20; omega
  | succ f ih =>
    intro attempt h20 hak hk20
    by_cases hEq : attempt + 1 = k
    · subst hEq
      simp [tickList, expectedEarlyFires, hexc]
    · have hlt : attempt + 1 < k := by omega
      have hle : counts (attempt + 1) ≤ baseline := hbefore _ (by omega) hlt
      have hnot : ¬ baseline < counts (attempt + 1) := by omega
      have h20a : ¬ 20 ≤ attempt + 1 := by omega
      simp only [tickList, expectedEarlyFires, if_neg hnot, if_neg h20a,
        if_neg hEq]
      by_cases h3 : (attempt + 1) % 3 = 0
      · simp only [if_pos h3, ih (attempt + 1) (by omega) hlt hk20]
      · simp only [if_neg h3, ih (attempt + 1) (by omega) hlt hk20]

/-- The fire pattern the code produces when the count never exceeds the
baseline: every third attempt fires the interim refresh, and attempt 20
fires the timeout refresh. -/
def expectedTimeoutFires : Nat → Nat → List Nat
  | _, 0 => []
  | attempt, fuel + 1 =>
    let a := attempt + 1
    if 20 ≤ a then [a]
    else if a % 3 = 0 then a :: expectedTimeoutFires a fuel
    else expectedTimeoutFires a fuel

lemma tickList_timeout (counts : Nat → Nat) (baseline : Nat)
    (hbelow : ∀ j, 0 < j → j ≤ 20 → counts j ≤ baseline) :
    ∀ fuel attempt, attempt + fuel = 20 →
      tickList counts baseline attempt fuel = expectedTimeoutFires attempt fuel := by
  intro fuel
  induction fuel with
  | zero => intro attempt _; rfl
  | succ f ih =>
    intro attempt h20
    have hle : counts (attempt + 1) ≤ baseline :=
      hbelow _ (by omega) (by omega)
    have hnot : ¬ baseline < counts (attempt + 1) := by omega
    simp only [tickList, expectedTimeoutFires, if_neg hnot]
    by_cases h20a : 20 ≤ attempt + 1
    · simp only [if_pos h20a]
    · simp only [if_neg h20a]
      by_cases h3 : (attempt + 1) % 3 = 0
      · simp only [if_pos h3, ih (attempt + 1) (by omega)]
      · simp only [if_neg h3, ih (attempt + 1) (by omega)]

/-! ### Watcher disposal

The effect's cleanup (config.ts lines 194-197) runs `clearTimeout` and
`clearInterval`.  Disposal before the settling timeout fires cancels
everything: no tick ever starts.  Disposal while a tick's asynchronous body
is in flight (it has run `attempts++` and is awaiting `getCurrentTotal`)
clears all FUTURE ticks, but JS timers cannot cancel the continuation of an
already-started async callback: when the awaited count resolves, the rest
of the body still runs (its own `clearInterval` call is a no-op by then,
and `await loadPolls()` executes whenever a firing branch is taken). -/
inductive DisposeWhen where
  | beforeStart
  | duringFirstAttempt
deriving DecidableEq, Repr

/-- What the first tick's continuation does when it resumes after disposal:
the body of the interval callback at `attempts = 1`, with the polled count
`cur` against the baseline (config.ts lines 152-190). -/
def resumeFires (cur baseline : Nat) : List Nat :=
  if baseline < cur then [1]
  else if 20 ≤ (1 : Nat) then [1]
  else if (1 : Nat) % 3 = 0 then [1]
  else []

/-- Refresh invocations of a disposed watcher run: none when disposal
precedes the settling timeout (nothing was scheduled yet), and the resumed
first tick's invocations when disposal happens while attempt 1 is in
flight.  No further attempts are scheduled after disposal in either
case. -/
def disposedWatcherFires (counts : Nat → Nat) (baseline : Nat) :
    DisposeWhen → List Nat
  | .beforeStart => []
  | .duringFirstAttempt => resumeFires (counts 1) baseline

/-! ### IdentifierResolver

Embedding of the pollId extraction of `handleSubmit`
(`src/unnamed/part_001`, lines 219-398).  The loop walks the receipt's
event records; inside one iteration it attempts, in order: the ABI decode
of a PollCreated event, the second topic of the event's data, and (the
"fallback adicional" block) the first element of an array-shaped
`event.data` or the second topic found on an object-shaped one.  After the
loop, if `pollId` is still 0, the aggregate `getTotalPolls` count is
queried and used when positive. -/

/-- An argument, topic, or data element attached to an event, as the code
converts it to a number: `num n` is a value whose JS numeric conversion
(`Number(x)` or the hex `parseInt` fallback) is `n`; `nonNum` is a truthy
value with no numeric reading (the conversion chain ends in `|| 0`);
`falsyArg` is a falsy value (`null`, `undefined`, `0`, the empty
string). -/
inductive Jarg where
  | num (n : Nat)
  | nonNum
  | falsyArg
deriving DecidableEq, Repr

/-- The numeric conversion the code applies to an argument or topic:
`Number(x) || parseInt(hex) || 0`. -/
def jargToNat : Jarg → Nat
  | .num n => n
  | .nonNum => 0
  | .falsyArg => 0

/-- JS truthiness of the raw value (the `if (pollIdTopic)` guard). -/
def jargTruthy : Jarg → Bool
  | .falsyArg => false
  | _ => true

/-- The shape of `event.data`: absent/falsy, an array, an object exposing a
`topics` array, or some other object. -/
inductive EvData where
  | noData
  | arr (xs : List Jarg)
  | objTopics (topics : List Jarg)
  | objOther
deriving DecidableEq, Repr

/-- One event record of the transaction receipt. `hasEvent` is the
truthiness of `eventRecord.event`; `decoded` is the outcome of
`contract.abi.decodeEvent` (identifier and argument list; `none` when the
decode throws or yields nothing); `identAlt` is the `(event as any)
.identifier` fallback the code reads when `event.method` is falsy. -/
structure EventRecord where
  hasEvent : Bool
  sectionName : String
  method : String
  identAlt : String
  decoded : Option (String × List Jarg)
  data : EvData
deriving DecidableEq, Repr

/-- The `isPollCreated` test of part_001 lines 242-246: a contracts-module
`ContractEmitted`/`ContractExecution` event, or an event whose method is
literally `PollCreated`. -/
def isPollCreatedGuard (e : EventRecord) : Prop :=
  (e.sectionName = "contracts"
      ∧ (e.method = "ContractEmitted" ∨ e.method = "ContractExecution"))
    ∨ e.method = "PollCreated"

instance (e : EventRecord) : Decidable (isPollCreatedGuard e) := by
  unfold isPollCreatedGuard
  infer_instance

/-- The ABI-decode attempt (part_001 lines 248-259): when the decoded event
is `PollCreated` and carries at least one argument, the code assigns
`Number(args[0]) || 0` to `pollId` and BREAKS out of the event loop
unconditionally — even when the converted value is 0. -/
def tryDecodedCommit (e : EventRecord) : Option Nat :=
  match e.decoded with
  | some (ident, a :: _) =>
    if ident = "PollCreated" then some (jargToNat a) else none
  | _ => none

/-- The topic fallback inside the guarded block (part_001 lines 265-293):
when `event.data` is truthy and its `topics` list has more than one entry
and the second topic is truthy, convert it; the loop breaks only when the
converted value is positive. -/
def topicAttemptA (e : EventRecord) : Option Nat :=
  match e.data with
  | .objTopics (_ :: t :: _) =>
    if jargTruthy t = true ∧ 0 < jargToNat t then some (jargToNat t)
    else none
  | _ => none

/-- The "fallback adicional" block (part_001 lines 301-335): when the
effective identifier (`event.method || identifier`) is `PollCreated` or
`ContractEmitted`, read the first element of an array-shaped `event.data`,
else the second topic of an object-shaped one; the loop breaks only on a
positive value. -/
def blockB (e : EventRecord) : Option Nat :=
  if e.hasEvent then
    let ident := if e.method = "" then e.identAlt else e.method
    if ident = "PollCreated" ∨ ident = "ContractEmitted" then
      match e.data with
      | .arr (x :: _) =>
        if 0 < jargToNat x then some (jargToNat x) else none
      | .arr [] => none
      | .objTopics (_ :: t :: _) =>
        if 0 < jargToNat t then some (jargToNat t) else none
      | .objTopics _ => none
      | .objOther => none
      | .noData => none
    else none
  else none

/-- One iteration of the event loop: `some v` means the loop breaks with
`pollId = v` (only the ABI-decode commit can break with 0); `none` means
the iteration falls through to the next event with `pollId` still 0. -/
def processEvent (e : EventRecord) : Option Nat :=
  let afterA : Option Nat :=
    if e.hasEvent = true ∧ isPollCreatedGuard e then
      match tryDecodedCommit e with
      | some v => some v
      | none => topicAttemptA e
    else none
  match afterA with
  | some v => some v
  | none => blockB e

/-- The whole event loop (part_001 lines 222-337): first break wins, 0 when
the receipt's events are exhausted. -/
def extractPollIdFromEvents : List EventRecord → Nat
  | [] => 0
  | e :: rest =>
    match processEvent e with
    | some v => v
    | none => extractPollIdFromEvents rest

/-- The ternary conversion used by `handleSubmit`'s aggregate-count
fallback on the `Ok`/`ok` payload (part_001 lines 749-754): a string goes
through `Number(okValue) || 0`, a number is taken as is, anything else is
0 — unlike `parseHumanOk` there is no `toNumber` branch here. -/
def parseHumanOkSimple : Jv → Nat
  | .jstr s => (jsNumber s).getD 0
  | .jnum n => n
  | .jobjNum _ => 0
  | .jother => 0

/-- The simplified human-only total parse used by the aggregate-count
fallback of `handleSubmit` (part_001 lines 744-757): only a human-readable
object with an `Ok`, else `ok`, key whose value is a numeric string or a
number is understood. -/
def createPollTotalParse : Option HumanOut → Nat
  | some (.hobj fields) =>
    (match lookupKey "Ok" fields with
     | some v => parseHumanOkSimple v
     | none =>
       match lookupKey "ok" fields with
       | some v => parseHumanOkSimple v
       | none => 0)
  | _ => 0

/-- The resolver: run the event loop; when it yields 0, query the
aggregate count (its human output is `aggHuman`; `none` also covers a
throwing query, whose catch leaves `pollId` at 0) and accept the count only
when positive.  0 means "could not resolve". -/
def resolvePollIdFromReceipt (events : List EventRecord)
    (aggHuman : Option HumanOut) : Nat :=
  let pollId := extractPollIdFromEvents events
  if pollId = 0 then
    let total := createPollTotalParse aggHuman
    if 0 < total then total else pollId
  else pollId

/-- The spec-side topic-positional strategy for a single event: the second
topic, read independently of the other strategies' outcomes ("index 0 is
always the event-signature hash"). -/
def topicCandidate (e : EventRecord) : Option Nat :=
  match e.data with
  | .objTopics (_ :: t :: _) => some (jargToNat t)
  | _ => none

/-! ### Local store and CacheMerger

Embedding of the IndexedDB layer of `src/unnamed/part_003`
(`PollMetadata`, `savePollMetadata`, `updatePollMetadata`) and of the
contract-metadata sync of `src/unnamed/part_004`
(`getPollMetadataFromContract`, `syncPollMetadata`).  Timestamps are
milliseconds as `Nat`; `Date.now()` is passed in as `now`.  The IndexedDB
machinery (open, transaction, put) either succeeds or rejects; a single
`putOk : Bool` models whether the put (including database initialisation
and the store check) succeeds. -/

/-- The `chainMetadata` shape of `PollMetadata` (part_003 lines 19-23). -/
structure ChainMetadata where
  chainName : String
  chainId : String
  specVersion : Option String
deriving DecidableEq, Repr

/-- The `PollMetadata` interface of the local database (part_003 lines
5-29).  Optional TS fields are `Option`s. -/
structure PollMetadata where
  pollId : Nat
  title : String
  description : String
  optionNames : List String
  maxOptions : Nat
  duration : Nat
  endsAt : Nat
  createdAt : Nat
  blockNumber : Option Nat
  blockHash : Option String
  transactionHash : Option String
  chainMetadata : Option ChainMetadata
  totalVotes : Option Nat
  isActive : Option Bool
  creator : Option String
  lastSynced : Option Nat
deriving DecidableEq, Repr

/-- The `dataToSave` normalisation of `savePollMetadata` (part_003 lines
194-211): `title || ''`, `optionNames || []`, `maxOptions || 0`, ... are
identities on the modelled types; the only observable rewrite is
`createdAt: metadata.createdAt || Date.now()`, which replaces a zero
creation time with the current time. -/
def dataToSave (metadata : PollMetadata) (now : Nat) : PollMetadata :=
  { metadata with
    createdAt := if metadata.createdAt = 0 then now else metadata.createdAt }

/-- `savePollMetadata` (part_003 lines 139-266): throws (`Except.error`)
when `!metadata.pollId` — i.e. when `pollId` is the sentinel 0 — and
otherwise performs the IndexedDB put of `dataToSave`, whose success is
`putOk`; the stored record is returned in the `ok` case so that theorems
can speak about what was persisted. -/
def savePollMetadata (metadata : PollMetadata) (now : Nat) (putOk : Bool) :
    Except Unit PollMetadata :=
  if metadata.pollId = 0 then Except.error ()
  else if putOk then Except.ok (dataToSave metadata now)
  else Except.error ()

/-- The `Partial<PollMetadata>` patch taken by `updatePollMetadata`
(part_003 line 374): `some v` is a key present in the updates object.  (A
key explicitly present with value `undefined` also overrides under JS
spread; such patches are not distinguished here — the claim under study
concerns only `pollId`, which the code forces after the spread.) -/
structure PollMetadataPatch where
  pollId : Option Nat := none
  title : Option String := none
  description : Option String := none
  optionNames : Option (List String) := none
  maxOptions : Option Nat := none
  duration : Option Nat := none
  endsAt : Option Nat := none
  createdAt : Option Nat := none
  blockNumber : Option Nat := none
  blockHash : Option String := none
  transactionHash : Option String := none
  chainMetadata : Option ChainMetadata := none
  totalVotes : Option Nat := none
  isActive : Option Bool := none
  creator : Option String := none
  lastSynced : Option Nat := none
deriving DecidableEq, Repr

/-- The spread `{ ...existing, ...updates, pollId }` of `updatePollMetadata`
(part_003 lines 382-386): every present key of `updates` overrides
`existing`, and `pollId` is written last with the function's argument. -/
def applyUpdates (existing : PollMetadata) (updates : PollMetadataPatch)
    (pollId : Nat) : PollMetadata :=
  { pollId := pollId
    title := updates.title.getD existing.title
    description := updates.description.getD existing.description
    optionNames := updates.optionNames.getD existing.optionNames
    maxOptions := updates.maxOptions.getD existing.maxOptions
    duration := updates.duration.getD existing.duration
    endsAt := updates.endsAt.getD existing.endsAt
    createdAt := updates.createdAt.getD existing.createdAt
    blockNumber :=
      match updates.blockNumber with
      | some v => some v
      | none => existing.blockNumber
    blockHash :=
      match updates.blockHash with
      | some v => some v
      | none => existing.blockHash
    transactionHash :=
      match updates.transactionHash with
      | some v => some v
      | none => existing.transactionHash
    chainMetadata :=
      match updates.chainMetadata with
      | some v => some v
      | none => existing.chainMetadata
    totalVotes :=
      match updates.totalVotes with
      | some v => some v
      | none => existing.totalVotes
    isActive :=
      match updates.isActive with
      | some v => some v
      | none => existing.isActive
    creator :=
      match updates.creator with
      | some v => some v
      | none => existing.creator
    lastSynced :=
      match updates.lastSynced with
      | some v => some v
      | none => existing.lastSynced }

/-- `updatePollMetadata` (part_003 lines 372-394): read the existing
record (`existing`; `none` makes the function throw `Poll ... no
encontrada`), apply the spread, and save.  On success the stored record is
returned. -/
def updatePollMetadata (pollId : Nat) (existing : Option PollMetadata)
    (updates : PollMetadataPatch) (now : Nat) (putOk : Bool) :
    Except Unit PollMetadata :=
  match existing with
  | none => Except.error ()
  | some ex => savePollMetadata (applyUpdates ex updates pollId) now putOk

/-- The `(exists, id, title, description, merkleRoot, maxOptions, creator,
isActive, totalVotes, created_at, ends_at)` tuple destructured from the
`get_poll` query's human output (part_004 line 66), with the `Number`,
`String` and `=== true` conversions of lines 107-118 already applied and
the creator's `Object.values` unwrapping (lines 74-86) folded into a
string. -/
structure RemotePollTuple where
  existsFlag : Bool
  id : Nat
  title : String
  description : String
  merkleRoot : String
  maxOptions : Nat
  creator : String
  isActive : Bool
  totalVotes : Nat
  createdAt : Nat
  endsAt : Nat
deriving DecidableEq, Repr

/-- The `ContractPollData` interface (part_004 lines 10-23). -/
structure ContractPollData where
  existsFlag : Bool
  id : Nat
  title : String
  description : String
  merkleRoot : String
  maxOptions : Nat
  creator : String
  isActive : Bool
  totalVotes : Nat
  createdAt : Nat
  endsAt : Nat
  voteTallies : List Nat
deriving DecidableEq, Repr

/-- `getPollMetadataFromContract` (part_004 lines 28-139).  `query` is the
outcome of the `get_poll` read: `none` when the query throws or its human
output has no `Ok` (both return `null`); the function also returns `null`
when the tuple's `exists` flag is false.  `talliesResult` is the outcome of
the follow-up `getAllTallies` read: `Except.error` when that query throws —
the catch at lines 101-105 then fabricates `Array(maxOptions).fill(0)` —
and `Except.ok none` when it returns but its output is not an `Ok` array,
which leaves `voteTallies` as the initial `[]`. -/
def getPollMetadataFromContract (query : Option RemotePollTuple)
    (talliesResult : Except Unit (Option (List Nat))) :
    Option ContractPollData :=
  match query with
  | none => none
  | some t =>
    if t.existsFlag then
      some
        { existsFlag := t.existsFlag
          id := t.id
          title := t.title
          description := t.description
          merkleRoot := t.merkleRoot
          maxOptions := t.maxOptions
          creator := t.creator
          isActive := t.isActive
          totalVotes := t.totalVotes
          createdAt := t.createdAt
          endsAt := t.endsAt
          voteTallies :=
            match talliesResult with
            | .ok (some ts) => ts
            | .ok none => []
            | .error _ => List.replicate t.maxOptions 0 }
    else none

/-- The `syncedMetadata` object built by `syncPollMetadata` (part_004 lines
164-185): contract fields take priority; `optionNames`, `duration` and the
provenance fields come from the local row when one exists (`?.` plus
`|| []` / `|| 0` defaults); `lastSynced` is stamped with the current
time. -/
def buildSyncedMetadata (contractData : ContractPollData)
    (localMetadata : Option PollMetadata) (now : Nat) : PollMetadata :=
  { pollId := contractData.id
    title := contractData.title
    description := contractData.description
    maxOptions := contractData.maxOptions
    isActive := some contractData.isActive
    totalVotes := some contractData.totalVotes
    creator := some contractData.creator
    endsAt := contractData.endsAt
    createdAt := contractData.createdAt
    optionNames := (localMetadata.map PollMetadata.optionNames).getD []
    duration := (localMetadata.map PollMetadata.duration).getD 0
    blockNumber := localMetadata.bind PollMetadata.blockNumber
    blockHash := localMetadata.bind PollMetadata.blockHash
    transactionHash := localMetadata.bind PollMetadata.transactionHash
    chainMetadata := localMetadata.bind PollMetadata.chainMetadata
    lastSynced := some now }

/-- `syncPollMetadata` (part_004 lines 145-204): fetch the contract data
(`null` propagates as `none`), read the local row, build the synced
record, and `await savePollMetadata(...)` INSIDE the try block — so a
throwing save is caught at lines 197-203 and the function returns `null`,
not the in-memory record. -/
def syncPollMetadata (query : Option RemotePollTuple)
    (talliesResult : Except Unit (Option (List Nat)))
    (localMetadata : Option PollMetadata) (now : Nat) (putOk : Bool) :
    Option PollMetadata :=
  match getPollMetadataFromContract query talliesResult with
  | none => none
  | some contractData =>
    let syncedMetadata := buildSyncedMetadata contractData localMetadata now
    match savePollMetadata syncedMetadata now putOk with
    | .error _ => none
    | .ok _ => some syncedMetadata

/-- The post-creation caching step of `handleSubmit` (part_001 lines
400-444): only a strictly positive resolved `pollId` is persisted; the
record is assembled from the form state (`optionNames.slice(0, maxOptions)`,
`endsAt` computed from the duration) and the provenance captured from the
inclusion signal (`blockNumber || undefined` and friends drop falsy
values); a throwing save is swallowed by the catch, so persistence failure
yields `none`. -/
def postCreationCache (pollId : Nat) (title description : String)
    (optionNames : List String) (maxOptions duration now : Nat)
    (blockNumber : Nat) (blockHash transactionHash : String)
    (chainMetadata : Option ChainMetadata) (putOk : Bool) :
    Option PollMetadata :=
  if 0 < pollId then
    (savePollMetadata
      { pollId := pollId
        title := title
        description := description
        optionNames := optionNames.take maxOptions
        maxOptions := maxOptions
        duration := duration
        endsAt := if 0 < duration then now + duration * 1000 else 0
        createdAt := now
        blockNumber := if blockNumber = 0 then none else some blockNumber
        blockHash := if blockHash = "" then none else some blockHash
        transactionHash :=
          if transactionHash = "" then none else some transactionHash
        chainMetadata := chainMetadata
        totalVotes := none
        isActive := none
        creator := none
        lastSynced := none } now putOk).toOption
  else none

/-! ## Claims -/

/-- C2, counterexample to the claim as stated.  The claim orders the six
strategies flatly, "stopping at the first strategy that yields a definite
value", which entails falling through to the value scan when the `Ok` key's
payload is not definite.  On an output whose human object is
`{Ok: "nope", count: 7}` the spec-side chain (`specDecode`) scans past the
unusable `Ok` payload and finds 7, but the code's `else if` chain commits
to the `Ok` key, gets 0, and PRIORIDAD 2 finds nothing, so `getTotalPolls`
returns 0. -/
theorem claimC2_counterexample :
    getTotalPolls
        (RawOut.obj
          (some (HumanOut.hobj [("Ok", Jv.jstr "nope"), ("count", Jv.jnum 7)]))
          none none none) = 0
      ∧ specDecode
        (RawOut.obj
          (some (HumanOut.hobj [("Ok", Jv.jstr "nope"), ("count", Jv.jnum 7)]))
          none none none) = 7 := by
  constructor
  · decide
  · decide

/-- C2, amended: `getTotalPolls` tries two strategy groups in order — the
human-readable group (Ok/ok key, bare number, value scan: the first
structurally applicable extraction commits, definite or not) and the raw
group (direct ok/Ok key, `toNumber()` accepted only when positive, plain
number: again first applicable commits) — and the result is the human
group's value when strictly positive, else the raw group's value when
strictly positive, else the sentinel 0. -/
theorem claimC2_amended (out : RawOut) :
    getTotalPolls out = firstDefinite [humanGroup out, rawGroup out] :=
  decode_eq_groupFirst out

/-- C3, counterexample to the claim as stated.  An explicit failure whose
human output is `{Err: 5}` is a raw result "representing an explicit
failure", yet `getTotalPolls` does not return the failure sentinel: the
value scan of PRIORIDAD 1 picks the numeric error payload 5 up and returns
it as a successful count. -/
theorem claimC3_counterexample :
    isExplicitFailure
        (RawOut.obj (some (HumanOut.hobj [("Err", Jv.jnum 5)])) none none none)
        = true
      ∧ getTotalPolls
        (RawOut.obj (some (HumanOut.hobj [("Err", Jv.jnum 5)])) none none none)
        = 5 := by
  constructor
  · decide
  · decide

/-- C3, amended: `getTotalPolls` is a total function (the source wraps the
whole parse in try/catch and never throws), and on every raw result on
which no strategy group yields a definite (positive) value — every
unrecognized shape, and every explicit failure whose payload carries no
numeric-looking value — it returns the failure sentinel 0, the code's
representation of `DecodeFailure`; a positive number is returned only when
some strategy produced it.  (An explicit failure with a numeric payload is
misread as a count, see the counterexample.) -/
theorem claimC3_amended (out : RawOut)
    (h : firstDefinite [humanGroup out, rawGroup out] = 0) :
    getTotalPolls out = 0 := by
  rw [decode_eq_groupFirst out, h]

/-- Witness for C3: a raw result of wholly unrecognized shape (an object
with no human conversion, no ok keys, no toNumber) decodes to the
sentinel 0. -/
theorem claimC3_witness :
    getTotalPolls (RawOut.obj none none none none) = 0 :=
  claimC3_amended (RawOut.obj none none none none) rfl

/-- C6, counterexample to the claim as stated.  Baseline 5, counts
[5,5,5,6,...]: the count first exceeds the baseline at attempt 4 (< 20),
but `loadPolls` fires twice over the run — the interim every-third-attempt
refresh at attempt 3 (config.ts line 186) and the confirmation refresh at
attempt 4 — not "exactly once, at attempt k". -/
theorem claimC6_counterexample :
    watcherFires (fun a => if 4 ≤ a then 6 else 5) 5 = [3, 4]
      ∧ (watcherFires (fun a => if 4 ≤ a then 6 else 5) 5).length = 2
      ∧ 5 < (fun a => if 4 ≤ a then 6 else 5) 4
      ∧ (fun a => if 4 ≤ a then 6 else 5) 1 ≤ 5
      ∧ (fun a => if 4 ≤ a then 6 else 5) 2 ≤ 5
      ∧ (fun a => if 4 ≤ a then 6 else 5) 3 ≤ 5 := by
  refine ⟨rfl, rfl, by norm_num, by norm_num, by norm_num, by norm_num⟩

/-- C6, amended: when the polled count first exceeds the baseline at
attempt `k < maxAttempts`, the refresh callback fires at attempt `k` and no
further attempt occurs after `k`; in addition it fires at every third
attempt before `k` (the interim keep-fresh refresh), so the whole-run fire
list is `expectedEarlyFires k 0 20` — multiples of 3 below `k` followed by
`k` — and the callback fires exactly once only when `k ≤ 3`. -/
theorem claimC6_amended (counts : Nat → Nat) (baseline k : Nat)
    (hk0 : 0 < k) (hk : k < 20) (hexc : baseline < counts k)
    (hbefore : ∀ j, 0 < j → j < k → counts j ≤ baseline) :
    watcherFires counts baseline = expectedEarlyFires k 0 20 :=
  tickList_firstExceed counts baseline k hexc hbefore 20 0 rfl hk0 (by omega)

/-- Witness for C6: baseline 7, counts jumping to 8 at attempt 2: the run
fires exactly once, at attempt 2. -/
theorem claimC6_witness :
    watcherFires (fun a => if 2 ≤ a then 8 else 7) 7 = [2] := by
  rw [claimC6_amended (fun a => if 2 ≤ a then 8 else 7) 7 2 (by norm_num)
    (by norm_num) (by norm_num)
    (by intro j h1 h2; interval_cases j; norm_num)]
  rfl

/-- C7, counterexample to the claim as stated.  With a count that never
increases, `loadPolls` fires seven times over the run — at the interim
attempts 3, 6, 9, 12, 15, 18 and at the timeout attempt 20 — not "exactly
once, at attempt maxAttempts". -/
theorem claimC7_counterexample :
    watcherFires (fun _ => 5) 5 = [3, 6, 9, 12, 15, 18, 20]
      ∧ (watcherFires (fun _ => 5) 5).length = 7 := by
  exact ⟨rfl, rfl⟩

/-- C7, amended: when the polled count never exceeds the baseline, the
refresh callback fires at attempt `maxAttempts = 20` and polling stops
there; in addition it fires at every third attempt along the way, so the
whole-run fire list is `[3, 6, 9, 12, 15, 18, 20]` — seven invocations,
not one. -/
theorem claimC7_amended (counts : Nat → Nat) (baseline : Nat)
    (hbelow : ∀ j, 0 < j → j ≤ 20 → counts j ≤ baseline) :
    watcherFires counts baseline = [3, 6, 9, 12, 15, 18, 20] := by
  rw [watcherFires, tickList_timeout counts baseline hbelow 20 0 rfl]
  rfl

/-- Witness for C7: a constant count of 4 against baseline 9 produces the
seven-invocation timeout pattern. -/
theorem claimC7_witness :
    watcherFires (fun _ => 4) 9 = [3, 6, 9, 12, 15, 18, 20] :=
  claimC7_amended (fun _ => 4) 9 (fun _ _ _ => by norm_num)

/-- C8, counterexample to the claim as stated.  Disposing the watcher while
attempt 1 is in flight (started, not yet resolved) does NOT guarantee zero
refresh invocations: `clearInterval` cannot cancel the continuation of the
already-running async callback, and when its awaited count resolves above
the baseline the continuation still calls `loadPolls` — one invocation
after disposal. -/
theorem claimC8_counterexample :
    disposedWatcherFires (fun _ => 6) 5 DisposeWhen.duringFirstAttempt = [1]
      ∧ (disposedWatcherFires (fun _ => 6) 5
          DisposeWhen.duringFirstAttempt).length = 1 := by
  exact ⟨rfl, rfl⟩

/-- C8, amended: disposing the watcher before the settling timeout fires
yields zero refresh invocations however far simulated time advances
(nothing is scheduled any more); disposing while attempt 1 is in flight
yields zero invocations unless that attempt's polled count exceeds the
baseline, in which case the resumed continuation fires the callback exactly
once; in every case at most one invocation can occur after disposal and no
further attempts are scheduled. -/
theorem claimC8_amended (counts : Nat → Nat) (baseline : Nat) :
    disposedWatcherFires counts baseline DisposeWhen.beforeStart = []
      ∧ disposedWatcherFires counts baseline DisposeWhen.duringFirstAttempt
        = (if baseline < counts 1 then [1] else [])
      ∧ (disposedWatcherFires counts baseline
          DisposeWhen.duringFirstAttempt).length ≤ 1 := by
  refine ⟨rfl, ?_, ?_⟩
  · simp only [disposedWatcherFires, resumeFires]
    norm_num
  · simp only [disposedWatcherFires, resumeFires]
    split <;> norm_num

/-- C4, counterexample to the claim as stated.  An ABI-decodable
`PollCreated` event whose first argument is non-numeric makes the loop
assign `Number(args[0]) || 0 = 0` and `break` unconditionally (part_001
line 257): the candidate is non-numeric, yet the topic-positional strategy
— whose second topic here carries the positive candidate 5 — is never
tried, and with the aggregate count unavailable the resolver returns 0.
Under the claim, the discarded candidate should have led to the next
strategy and hence to 5. -/
theorem claimC4_counterexample :
    resolvePollIdFromReceipt
        [{ hasEvent := true
           sectionName := "contracts"
           method := "ContractEmitted"
           identAlt := ""
           decoded := some ("PollCreated", [Jarg.nonNum])
           data := EvData.objTopics [Jarg.nonNum, Jarg.num 5] }] none = 0
      ∧ topicCandidate
        { hasEvent := true
          sectionName := "contracts"
          method := "ContractEmitted"
          identAlt := ""
          decoded := some ("PollCreated", [Jarg.nonNum])
          data := EvData.objTopics [Jarg.nonNum, Jarg.num 5] } = some 5 := by
  exact ⟨rfl, rfl⟩

/-- C4, amended: candidates from the topic-positional strategy, the
"fallback adicional" array/topic strategy and the aggregate-count fallback
are accepted only when strictly positive, with fall-through otherwise (an
event yielding no break leaves the remaining events and the aggregate
fallback to decide); a positive break value becomes the final result; but a
successfully ABI-decoded `PollCreated` event carrying at least one argument
commits immediately even when its converted value is 0 — the per-event
strategies after it are skipped and only the aggregate-count fallback
(accepted only when positive) still runs. -/
theorem claimC4_amended (e : EventRecord) (rest : List EventRecord)
    (aggHuman : Option HumanOut) :
    (processEvent e = none →
      resolvePollIdFromReceipt (e :: rest) aggHuman
        = resolvePollIdFromReceipt rest aggHuman)
      ∧ (∀ v, topicAttemptA e = some v → 0 < v)
      ∧ (∀ v, blockB e = some v → 0 < v)
      ∧ (∀ v, processEvent e = some v → 0 < v →
          resolvePollIdFromReceipt (e :: rest) aggHuman = v)
      ∧ (processEvent e = some 0 →
          resolvePollIdFromReceipt (e :: rest) aggHuman
            = (if 0 < createPollTotalParse aggHuman then
                createPollTotalParse aggHuman else 0)) := by
  refine ⟨?_, ?_, ?_, ?_, ?_⟩
  · intro h
    simp [resolvePollIdFromReceipt, extractPollIdFromEvents, h]
  · intro v hv
    unfold topicAttemptA at hv
    split at hv
    · split at hv
      · rename_i hcond
        cases hv
        exact hcond.2
      · cases hv
    · cases hv
  · intro v hv
    unfold blockB at hv
    rcases hd : e.data with _ | (_ | ⟨x, xs⟩) | (_ | ⟨t1, (_ | ⟨t2, ts⟩)⟩) | _
    · simp [hd] at hv
    · simp [hd] at hv
    · simp only [hd, Option.ite_none_right_eq_some, Option.some.injEq] at hv
      obtain ⟨-, -, hlt, heq⟩ := hv
      omega
    · simp [hd] at hv
    · simp [hd] at hv
    · simp only [hd, Option.ite_none_right_eq_some, Option.some.injEq] at hv
      obtain ⟨-, -, hlt, heq⟩ := hv
      omega
    · simp [hd] at hv
  · intro v hv hpos
    have hne : ¬ v = 0 := by omega
    simp [resolvePollIdFromReceipt, extractPollIdFromEvents, hv, hne]
  · intro hv
    simp [resolvePollIdFromReceipt, extractPollIdFromEvents, hv]

/-- Witness for C4: a decoded `PollCreated` event with positive first
argument resolves to that argument; a decoded commit of 0 falls back to the
aggregate count, here the human `{Ok: "4"}`. -/
theorem claimC4_witness :
    resolvePollIdFromReceipt
        [{ hasEvent := true
           sectionName := "contracts"
           method := "ContractEmitted"
           identAlt := ""
           decoded := some ("PollCreated", [Jarg.num 9])
           data := EvData.noData }] none = 9
      ∧ resolvePollIdFromReceipt
        [{ hasEvent := true
           sectionName := "contracts"
           method := "ContractEmitted"
           identAlt := ""
           decoded := some ("PollCreated", [Jarg.nonNum])
           data := EvData.noData }]
        (some (HumanOut.hobj [("Ok", Jv.jstr "4")])) = 4 := by
  constructor
  · exact (claimC4_amended
      { hasEvent := true
        sectionName := "contracts"
        method := "ContractEmitted"
        identAlt := ""
        decoded := some ("PollCreated", [Jarg.num 9])
        data := EvData.noData } [] none).2.2.2.1 9 (by decide) (by norm_num)
  · have h := (claimC4_amended
      { hasEvent := true
        sectionName := "contracts"
        method := "ContractEmitted"
        identAlt := ""
        decoded := some ("PollCreated", [Jarg.nonNum])
        data := EvData.noData } []
      (some (HumanOut.hobj [("Ok", Jv.jstr "4")]))).2.2.2.2 (by decide)
    simpa using h

/-! ### Fixtures for the merger and store claims -/

/-- Remote tuple used by C1's counterexample. -/
def cexRemoteC1 : RemotePollTuple :=
  { existsFlag := true, id := 1, title := "T", description := "D"
    merkleRoot := "0x01", maxOptions := 2, creator := "alice"
    isActive := true, totalVotes := 0, createdAt := 0, endsAt := 0 }

/-- Remote tuple used by C1's witness. -/
def witRemoteC1 : RemotePollTuple :=
  { existsFlag := true, id := 3, title := "RT", description := "RD"
    merkleRoot := "0x0f", maxOptions := 2, creator := "bob"
    isActive := false, totalVotes := 7, createdAt := 1000, endsAt := 2000 }

/-- Local cache row used by C1's witness, with fields differing from the
remote tuple. -/
def witLocalC1 : PollMetadata :=
  { pollId := 3, title := "LT", description := "LD"
    optionNames := ["A", "B"], maxOptions := 2, duration := 3600
    endsAt := 999, createdAt := 5, blockNumber := some 12
    blockHash := some "0xb", transactionHash := some "0xc"
    chainMetadata := some { chainName := "dev", chainId := "42"
                            specVersion := some "1" }
    totalVotes := some 1, isActive := some true, creator := some "carl"
    lastSynced := some 7 }

/-- Remote tuple used by C5's counterexample. -/
def cexRemoteC5 : RemotePollTuple :=
  { existsFlag := true, id := 2, title := "U", description := "V"
    merkleRoot := "0x02", maxOptions := 3, creator := "dave"
    isActive := true, totalVotes := 4, createdAt := 10, endsAt := 20 }

/-- Local cache row used by C5's counterexample. -/
def cexLocalC5 : PollMetadata :=
  { pollId := 2, title := "lu", description := "lv"
    optionNames := ["p", "q", "r"], maxOptions := 3, duration := 60
    endsAt := 0, createdAt := 1, blockNumber := none, blockHash := none
    transactionHash := none, chainMetadata := none, totalVotes := none
    isActive := none, creator := none, lastSynced := none }

/-- Remote tuple used by C5's witness. -/
def witRemoteC5 : RemotePollTuple :=
  { existsFlag := true, id := 6, title := "W", description := "X"
    merkleRoot := "0x03", maxOptions := 2, creator := "erin"
    isActive := false, totalVotes := 0, createdAt := 0, endsAt := 0 }

/-- A record carrying the invalid sentinel `pollId = 0`, for C9. -/
def mZeroC9 : PollMetadata :=
  { pollId := 0, title := "z", description := "", optionNames := []
    maxOptions := 2, duration := 0, endsAt := 0, createdAt := 1
    blockNumber := none, blockHash := none, transactionHash := none
    chainMetadata := none, totalVotes := none, isActive := none
    creator := none, lastSynced := none }

/-- An existing stored row for C9's update witness. -/
def existingC9 : PollMetadata :=
  { pollId := 7, title := "old", description := "od", optionNames := ["x"]
    maxOptions := 1, duration := 5, endsAt := 0, createdAt := 10
    blockNumber := none, blockHash := none, transactionHash := none
    chainMetadata := none, totalVotes := none, isActive := none
    creator := none, lastSynced := none }

/-- An updates object that tries to smuggle a different `pollId` (999), for
C9's update witness. -/
def patchC9 : PollMetadataPatch :=
  { pollId := some 999, title := some "new" }

/-- The record the post-creation caching step assembles for C9's witness
arguments (pollId 7, two options, duration 10, now 100, no provenance). -/
def postRecC9 : PollMetadata :=
  { pollId := 7, title := "t", description := "d"
    optionNames := ["a", "b"], maxOptions := 2, duration := 10
    endsAt := 10100, createdAt := 100, blockNumber := none
    blockHash := none, transactionHash := none, chainMetadata := none
    totalVotes := none, isActive := none, creator := none
    lastSynced := none }

/-- Remote tuple used by C10's witness, with `maxOptions = 3`. -/
def tupleC10 : RemotePollTuple :=
  { existsFlag := true, id := 4, title := "P", description := "Q"
    merkleRoot := "0x04", maxOptions := 3, creator := "fred"
    isActive := true, totalVotes := 9, createdAt := 11, endsAt := 22 }

/-- C1, counterexample to the claim as stated.  The remote fetch succeeds
(`existsFlag = true`), yet `syncPollMetadata` returns `none` rather than a
`MergedView`: the write-back (`savePollMetadata`, awaited inside the try
block at part_004 line 188) fails and the catch returns `null`. -/
theorem claimC1_counterexample :
    cexRemoteC1.existsFlag = true
      ∧ syncPollMetadata (some cexRemoteC1) (Except.ok (some [0, 0]))
          none 5 false = none := ⟨rfl, rfl⟩

/-- C1, amended.  When the remote fetch fails or the record does not exist,
the merge returns `none` regardless of local content.  When the remote
fetch succeeds, PROVIDED the local persist does not fail and the remote id
is nonzero (a zero id makes `savePollMetadata` throw and the merge return
`none`), the returned record carries the remote values on every
remote-overlapping field and the previously persisted local values (or
`[]` / `0` / `none` when no local row exists) on every local-only field,
stamped with `lastSynced = now`. -/
theorem claimC1_amended (tallies : Except Unit (Option (List Nat)))
    (localMetadata : Option PollMetadata) (now : Nat) (putOk : Bool)
    (t : RemotePollTuple) :
    syncPollMetadata none tallies localMetadata now putOk = none
      ∧ (t.existsFlag = false →
          syncPollMetadata (some t) tallies localMetadata now putOk = none)
      ∧ (t.existsFlag = true → t.id ≠ 0 →
          (syncPollMetadata (some t) tallies localMetadata now true).isSome
            = true)
      ∧ (t.existsFlag = true → t.id ≠ 0 →
          ∀ m, syncPollMetadata (some t) tallies localMetadata now true
              = some m →
            m.pollId = t.id ∧ m.title = t.title
              ∧ m.description = t.description
              ∧ m.maxOptions = t.maxOptions
              ∧ m.isActive = some t.isActive
              ∧ m.totalVotes = some t.totalVotes
              ∧ m.creator = some t.creator
              ∧ m.createdAt = t.createdAt ∧ m.endsAt = t.endsAt
              ∧ m.optionNames
                = (localMetadata.map PollMetadata.optionNames).getD []
              ∧ m.duration
                = (localMetadata.map PollMetadata.duration).getD 0
              ∧ m.blockNumber = localMetadata.bind PollMetadata.blockNumber
              ∧ m.blockHash = localMetadata.bind PollMetadata.blockHash
              ∧ m.transactionHash
                = localMetadata.bind PollMetadata.transactionHash
              ∧ m.chainMetadata
                = localMetadata.bind PollMetadata.chainMetadata
              ∧ m.lastSynced = some now) := by
  refine ⟨rfl, ?_, ?_, ?_⟩
  · intro h
    simp [syncPollMetadata, getPollMetadataFromContract, h]
  · intro h1 h2
    simp [syncPollMetadata, getPollMetadataFromContract, buildSyncedMetadata,
      savePollMetadata, h1, h2]
  · intro h1 h2 m hm
    simp [syncPollMetadata, getPollMetadataFromContract, buildSyncedMetadata,
      savePollMetadata, h1, h2] at hm
    subst hm
    simp

/-- Witness for C1: merging the witness remote tuple with the persisted
witness local row returns a record (the fetch-failed case returns `none`),
and the merged record's `optionNames` are the locally persisted
`["A", "B"]`. -/
theorem claimC1_witness :
    syncPollMetadata none (Except.ok (some [3, 4])) (some witLocalC1) 42 true
        = none
      ∧ (syncPollMetadata (some witRemoteC1) (Except.ok (some [3, 4]))
          (some witLocalC1) 42 true).isSome = true
      ∧ (syncPollMetadata (some witRemoteC1) (Except.ok (some [3, 4]))
          (some witLocalC1) 42 true).map PollMetadata.optionNames
        = some ["A", "B"] := by
  have h := claimC1_amended (Except.ok (some [3, 4])) (some witLocalC1) 42
    true witRemoteC1
  refine ⟨h.1, h.2.2.1 rfl (by decide), ?_⟩
  obtain ⟨m, hm⟩ := Option.isSome_iff_exists.mp (h.2.2.1 rfl (by decide))
  have hf := h.2.2.2 rfl (by decide) m hm
  have hopt := hf.2.2.2.2.2.2.2.2.2.1
  rw [hm]
  show some m.optionNames = some ["A", "B"]
  rw [hopt]
  rfl

/-- C5, counterexample to the claim as stated.  The remote fetch succeeds,
the write-back of the merged record fails, and `syncPollMetadata` returns
`none` — NOT the in-memory `MergedView` the claim promises. -/
theorem claimC5_counterexample :
    cexRemoteC5.existsFlag = true
      ∧ syncPollMetadata (some cexRemoteC5) (Except.ok none)
          (some cexLocalC5) 3 false = none := ⟨rfl, rfl⟩

/-- C5, amended: a failing write-back DOES fail the merge.  The save is
awaited inside `syncPollMetadata`'s try block, so its rejection reaches the
catch, which logs and returns `null`: for every successfully fetched remote
record, a failing persist makes the merge return `none` instead of the
in-memory merged view. -/
theorem claimC5_amended (t : RemotePollTuple)
    (tallies : Except Unit (Option (List Nat)))
    (localMetadata : Option PollMetadata) (now : Nat)
    (h : t.existsFlag = true) :
    syncPollMetadata (some t) tallies localMetadata now false = none := by
  have hsave : ∀ m : PollMetadata, savePollMetadata m now false
      = Except.error () := by
    intro m
    unfold savePollMetadata
    split <;> rfl
  simp [syncPollMetadata, getPollMetadataFromContract, h, hsave]

/-- Witness for C5: the witness remote tuple with a failing tallies query,
no local row, and a failing persist merges to `none`. -/
theorem claimC5_witness :
    syncPollMetadata (some witRemoteC5) (Except.error ()) none 9 false
      = none :=
  claimC5_amended witRemoteC5 (Except.error ()) none 9 rfl

lemma savePollMetadata_ok_pollId (metadata : PollMetadata) (now : Nat)
    (putOk : Bool) (r : PollMetadata)
    (h : savePollMetadata metadata now putOk = Except.ok r) :
    r.pollId = metadata.pollId := by
  unfold savePollMetadata at h
  split at h
  · simp at h
  · split at h
    · injection h with h2
      rw [← h2]
      rfl
    · simp at h

lemma savePollMetadata_toOption_pollId (metadata : PollMetadata) (now : Nat)
    (putOk : Bool) (r : PollMetadata)
    (h : (savePollMetadata metadata now putOk).toOption = some r) :
    r.pollId = metadata.pollId := by
  cases hs : savePollMetadata metadata now putOk with
  | error e => rw [hs] at h; simp [Except.toOption] at h
  | ok a =>
    rw [hs] at h
    simp [Except.toOption] at h
    rw [← h]
    exact savePollMetadata_ok_pollId metadata now putOk a hs

/-- C9: the persistence invariant holds.  `savePollMetadata` rejects (with
an error) any record whose `pollId` is the sentinel 0; the post-creation
caching step persists only when the resolved identifier is strictly
positive, and the record it stores carries that identifier; and
`updatePollMetadata` keeps the stored record's `pollId` equal to its
`pollId` argument even when the updates object carries a different
`pollId`. -/
theorem claimC9 (m : PollMetadata) (now : Nat) (putOk : Bool) (pid : Nat)
    (title description : String) (optionNames : List String)
    (maxOptions duration blockNumber : Nat)
    (blockHash transactionHash : String) (cm : Option ChainMetadata)
    (existing : Option PollMetadata) (updates : PollMetadataPatch) :
    (m.pollId = 0 → savePollMetadata m now putOk = Except.error ())
      ∧ (∀ r, postCreationCache pid title description optionNames maxOptions
            duration now blockNumber blockHash transactionHash cm putOk
            = some r →
          0 < pid ∧ r.pollId = pid)
      ∧ (∀ r, updatePollMetadata pid existing updates now putOk
            = Except.ok r →
          r.pollId = pid) := by
  refine ⟨?_, ?_, ?_⟩
  · intro h
    simp [savePollMetadata, h]
  · intro r hr
    unfold postCreationCache at hr
    by_cases hp : 0 < pid
    · refine ⟨hp, ?_⟩
      rw [if_pos hp] at hr
      exact savePollMetadata_toOption_pollId _ now putOk r hr
    · rw [if_neg hp] at hr
      simp at hr
  · intro r hr
    cases existing with
    | none => simp [updatePollMetadata] at hr
    | some ex =>
      unfold updatePollMetadata at hr
      exact savePollMetadata_ok_pollId _ now putOk r hr

/-- Witness for C9: the zero-id record is rejected, the post-creation step
stores `pollId = 7` for a resolved identifier of 7, and updating poll 7
with a patch that smuggles `pollId = 999` still stores `pollId = 7`. -/
theorem claimC9_witness :
    savePollMetadata mZeroC9 100 true = Except.error ()
      ∧ (0 < 7 ∧ (dataToSave postRecC9 100).pollId = 7)
      ∧ (dataToSave (applyUpdates existingC9 patchC9 7) 100).pollId = 7 := by
  have h := claimC9 mZeroC9 100 true 7 "t" "d" ["a", "b"] 2 10 0 "" "" none
    (some existingC9) patchC9
  exact ⟨h.1 rfl, h.2.1 (dataToSave postRecC9 100) rfl,
    h.2.2 (dataToSave (applyUpdates existingC9 patchC9 7) 100) rfl⟩

/-- C10: when the per-poll remote read succeeds (`exists = true`) but the
follow-up vote-tallies query throws, `getPollMetadataFromContract` does not
return `none`: it returns the record with `voteTallies` fabricated as
exactly `maxOptions` zeros (part_004 lines 101-105), so the merged view can
show an all-zero tally despite the tallies read having failed. -/
theorem claimC10 (t : RemotePollTuple) (h : t.existsFlag = true) :
    (getPollMetadataFromContract (some t) (Except.error ())).isSome = true
      ∧ (getPollMetadataFromContract (some t) (Except.error ())).map
          ContractPollData.voteTallies
        = some (List.replicate t.maxOptions 0)
      ∧ (getPollMetadataFromContract (some t) (Except.error ())).map
          (fun r => r.voteTallies.length)
        = some t.maxOptions := by
  simp [getPollMetadataFromContract, h]

/-- Witness for C10: the witness tuple with `maxOptions = 3` and a throwing
tallies query yields a record with tallies `[0, 0, 0]`. -/
theorem claimC10_witness :
    (getPollMetadataFromContract (some tupleC10) (Except.error ())).isSome
        = true
      ∧ (getPollMetadataFromContract (some tupleC10) (Except.error ())).map
          ContractPollData.voteTallies = some [0, 0, 0] := by
  have h := claimC10 tupleC10 rfl
  refine ⟨h.1, ?_⟩
  rw [h.2.1]
  rfl
